import Mathlib

/-!
Shallow embedding of `clock.py` (guigui0246/clockOfclock): a digital clock
rendered as grids of small analog clock faces.  Pure functions are translated
directly; the Tkinter redraw step is modelled as a pure step function that
records its outcome, whether it rescheduled itself, and the log events it
emitted.  Machine floats of the angle computation are modelled as real
numbers; Python's `round(x, 10)` becomes rounding to an integer multiple of
`10 ^ (-10)`.
-/

/-- Embedding of the `ClockOrientation` enum: the 12 discrete hand angles. -/
inductive ClockOrientation where
  | DEG_0 | DEG_30 | DEG_60 | DEG_90 | DEG_120 | DEG_150
  | DEG_180 | DEG_210 | DEG_240 | DEG_270 | DEG_300 | DEG_330
deriving DecidableEq, Repr

/-- Embedding of `ClockOrientation.value`: the angle in degrees of each member. -/
def ClockOrientation.value : ClockOrientation → Nat
  | .DEG_0 => 0
  | .DEG_30 => 30
  | .DEG_60 => 60
  | .DEG_90 => 90
  | .DEG_120 => 120
  | .DEG_150 => 150
  | .DEG_180 => 180
  | .DEG_210 => 210
  | .DEG_240 => 240
  | .DEG_270 => 270
  | .DEG_300 => 300
  | .DEG_330 => 330

/-- Embedding of the `ClockOrientations` type alias: the two hands of one face. -/
abbrev ClockOrientations := ClockOrientation × ClockOrientation

/-- Embedding of the `ClockSquare` type alias (6 rows of 4 orientation pairs);
the fixed tuple sizes of the Python type aliases are modelled with lists. -/
abbrev ClockSquare := List (List ClockOrientations)

/-- Embedding of `ClockDirectionMap`: a `defaultdict` sending the six
recognized glyphs to their hand-orientation pairs and every other character
to the default pair `(DEG_150, DEG_150)`. -/
def ClockDirectionMap (c : Char) : ClockOrientations :=
  if c = '└' then (.DEG_0, .DEG_270)
  else if c = '┌' then (.DEG_270, .DEG_180)
  else if c = '┐' then (.DEG_180, .DEG_90)
  else if c = '┘' then (.DEG_90, .DEG_0)
  else if c = '-' then (.DEG_90, .DEG_270)
  else if c = '|' then (.DEG_0, .DEG_180)
  else (.DEG_150, .DEG_150)

/-- Embedding of the `DigitRepresentation` dict: glyph patterns, keyed by the
13 supported characters, each a 6-row tuple of 4-character strings. -/
def DigitRepresentation : List (Char × List String) := [
  ('0', ["┌--┐", "|┌┐|", "||||", "||||", "|└┘|", "└--┘"]),
  ('1', ["┌-┐ ", "└┐| ", " || ", " || ", "┌┘└┐", "└--┘"]),
  ('2', ["┌--┐", "└-┐|", "┌-┘|", "|┌-┘", "|└-┐", "└--┘"]),
  ('3', ["┌--┐", "└-┐|", " ┌┘|", " └┐|", "┌-┘|", "└--┘"]),
  ('4', ["┌┐┌┐", "||||", "|└┘|", "└-┐|", "  ||", "  └┘"]),
  ('5', ["┌--┐", "|┌-┘", "|└-┐", "└-┐|", "┌-┘|", "└--┘"]),
  ('6', ["┌--┐", "|┌-┘", "|└-┐", "|┌┐|", "|└┘|", "└--┘"]),
  ('7', ["┌--┐", "└-┐|", "  ||", "  ||", "  ||", "  └┘"]),
  ('8', ["┌--┐", "|┌┐|", "|└┘|", "|┌┐|", "|└┘|", "└--┘"]),
  ('9', ["┌--┐", "|┌┐|", "|└┘|", "└-┐|", "┌-┘|", "└--┘"]),
  (' ', ["    ", "    ", "    ", "    ", "    ", "    "]),
  (':', ["    ", " ┌┐ ", " └┘ ", " ┌┐ ", " └┘ ", "    "]),
  ('/', ["  ┌┐", " ┌┘|", " |┌┘", "┌┘| ", "|┌┘ ", "└┘  "])
]

/-- Errors raised by the embedded functions, distinguishing Python's
`ValueError` from `AssertionError` (only the former is caught in
`print_to_tk`). -/
inductive ClockError where
  | valueError (msg : String)
  | assertionError (msg : String)
deriving DecidableEq, Repr

/-- Components of `datetime.now().strftime("%Y %m %d %H %M %S").split(" ")`,
passed explicitly since the wall clock is an outside input. -/
structure NowParts where
  year : String
  month : String
  day : String
  hour : String
  minute : String
  second : String
deriving DecidableEq, Repr

/-- Embedding of `current_time`: selects date and/or time components of the
current instant, raising `ValueError` when both toggles are false. -/
def current_time (now : NowParts) (date : Bool) (hours : Bool) :
    Except ClockError (List String) :=
  let all_parts := [now.year, now.month, now.day, now.hour, now.minute, now.second]
  if date && hours then .ok all_parts
  else if date then .ok (all_parts.take 3)
  else if hours then .ok (all_parts.drop 3)
  else .error (.valueError "At least one of 'date' or 'hours' must be True.")

/-- Embedding of `clock_digit`: looks up a glyph's pattern and maps every
pattern character through `ClockDirectionMap`; `none` models the `KeyError`
on a glyph outside the table. -/
def clock_digit (digit : Char) : Option ClockSquare :=
  (DigitRepresentation.lookup digit).map
    (fun rows => rows.map (fun row => row.toList.map ClockDirectionMap))

/-- Embedding of `full_clock_string`: asserts that every character of the
input has a pattern, then converts each character to its `ClockSquare`. -/
def full_clock_string (s : String) : Except ClockError (List ClockSquare) :=
  if s.toList.all (fun c => (DigitRepresentation.lookup c).isSome) then
    .ok (s.toList.filterMap clock_digit)
  else
    .error (.assertionError "String contains invalid characters.")

/-- Embedding of `full_clock_time`: formats the selected components
("HH:MM:SS", "DD/MM/YYYY") and converts the joined string to clock squares. -/
def full_clock_time (now : NowParts) (date : Bool) (hours : Bool) :
    Except ClockError (List ClockSquare) :=
  match current_time now date hours with
  | .error e => .error e
  | .ok current =>
    let current :=
      if date then
        current.drop 3 ++
          [(if hours then " " else ""), String.intercalate "/" (current.take 3).reverse]
      else current
    let current :=
      if hours then
        String.intercalate ":" (current.take 3) :: current.drop 3
      else current
    full_clock_string (String.join current)

/-- Embedding of the angle computation's `round(x, 10)`: rounding a real to
ten decimal places. -/
noncomputable def round10 (x : ℝ) : ℝ := (round (x * 10 ^ 10) : ℤ) / 10 ^ 10

/-- Embedding of `unpositionned_angle_calculation`: trigonometric projection
of a hand of length `0.8 * (clock_size / 2 - 3)` from the face center, with
`math.radians` inlined as `angle * π / 180` and screen coordinates (y grows
downward).  The `lru_cache` memoization and the `logging` side effect do not
change the returned value and are not modelled. -/
noncomputable def unpositionned_angle_calculation (angle clock_size : ℝ) : ℝ × ℝ :=
  (round10 (clock_size / 2 +
      (clock_size / 2 - 3) * 0.8 * (-1) * Real.sin (angle * Real.pi / 180)),
   round10 (clock_size / 2 +
      (clock_size / 2 - 3) * 0.8 * (-1) * Real.cos (angle * Real.pi / 180)))

/-- Embedding of `angle_calculation`: translates the unpositioned hand tip by
the face's top-left corner `(x, y)`. -/
noncomputable def angle_calculation (angle clock_size x y : ℝ) : ℝ × ℝ :=
  (x + (unpositionned_angle_calculation angle clock_size).1,
   y + (unpositionned_angle_calculation angle clock_size).2)

/-- Substring test mirroring Python's `needle in haystack`. -/
def containsSubstr (needle hay : String) : Bool :=
  hay.toList.tails.any (fun t => needle.toList.isPrefixOf t)

/-- Predicate extracted from the `except ValueError` clause of `print_to_tk`:
an error is swallowed exactly when it is a `ValueError` whose text contains
the formatting message; every other error is re-raised. -/
def print_to_tk_catches : ClockError → Bool
  | .valueError msg =>
    containsSubstr "At least one of 'date' or 'hours' must be True." msg
  | .assertionError _ => false

/-- Log events emitted by one `print_to_tk` tick.  The per-hand DEBUG record
("Drawing line from ... to ...") is abstracted to the loop indices and the
hand angle; its concrete pixel text does not matter for any claim. -/
inductive LogEvent where
  | drawLine (idx row col : Nat) (angle : Nat)
deriving DecidableEq, Repr

/-- Log events of the drawing loop of `print_to_tk`: one per hand of every
cell of every square, in loop order. -/
def drawLogs (squares : List ClockSquare) : List LogEvent :=
  (squares.enum.map (fun p =>
    (p.2.enum.map (fun q =>
      (q.2.enum.map (fun r =>
        [LogEvent.drawLine p.1 q.1 r.1 r.2.1.value,
         LogEvent.drawLine p.1 q.1 r.1 r.2.2.value])).flatten)).flatten)).flatten

/-- Outcome of one `print_to_tk` tick: a frame was drawn, the frame was
skipped by the `ValueError` handler, or an exception propagated. -/
inductive TkOutcome where
  | frameDrawn
  | frameSkipped
  | raised (e : ClockError)
deriving DecidableEq, Repr

/-- Result of one `print_to_tk` tick: its outcome, whether `root.after`
rescheduled the next tick, and the log events emitted. -/
structure TkStep where
  outcome : TkOutcome
  rescheduled : Bool
  logs : List LogEvent
deriving DecidableEq, Repr

/-- Embedding of one tick of `print_to_tk` (the canvas drawing calls are
external side effects and are represented by their log events).  The
`root.after` rescheduling line runs unless an exception propagates out of
the `try`/`except` construct. -/
def print_to_tk_step (date hours : Bool) (now : NowParts) : TkStep :=
  match full_clock_time now date hours with
  | .ok squares => ⟨.frameDrawn, true, drawLogs squares⟩
  | .error e =>
    if print_to_tk_catches e then ⟨.frameSkipped, true, []⟩
    else ⟨.raised e, false, []⟩

/-- Embedding of the `__main__` argv parsing:
`date = "--date" in argv; hours = "--hours" in argv or not date`. -/
def parse_args (argv : List String) : Bool × Bool :=
  let date := argv.contains "--date"
  (date, argv.contains "--hours" || !date)

/-- Embedding of `os.path.join`, with the path separator fixed to `/`. -/
def pathJoin (a b : String) : String := a ++ "/" ++ b

/-- Embedding of the `__main__` APPDATA resolution: an unset (`none`) or
empty (falsy) `APPDATA` falls back to `<home>/.appdata`, and a home of `"~"`
(`os.path.expanduser` found no home) is a fatal `EnvironmentError`. -/
def resolve_appdata (appdata : Option String) (home : String) :
    Except String String :=
  let fallback : Except String String :=
    if home = "~" then .error "Cannot determine home directory."
    else .ok (pathJoin home ".appdata")
  match appdata with
  | some s => if s = "" then fallback else .ok s
  | none => fallback

/-- Embedding of the `__main__` log directory: `<resolved appdata>/PyClock`. -/
def log_dir_of (appdata : Option String) (home : String) :
    Except String String :=
  (resolve_appdata appdata home).map (fun a => pathJoin a "PyClock")

/-- Rounding to ten decimals is the identity on reals whose product with
`10 ^ 10` is an integer. -/
lemma round10_eq_self (x : ℝ) (m : ℤ) (h : x * 10 ^ 10 = (m : ℝ)) :
    round10 x = x := by
  unfold round10
  rw [h, round_intCast]
  field_simp
  linarith [h]

/-- Evaluation of `unpositionned_angle_calculation` once the sine and cosine
of the angle are known. -/
lemma unpos_eval (a s sv cv : ℝ) (hsin : Real.sin (a * Real.pi / 180) = sv)
    (hcos : Real.cos (a * Real.pi / 180) = cv) :
    unpositionned_angle_calculation a s =
      (round10 (s / 2 + (s / 2 - 3) * 0.8 * (-1) * sv),
       round10 (s / 2 + (s / 2 - 3) * 0.8 * (-1) * cv)) := by
  unfold unpositionned_angle_calculation
  rw [hsin, hcos]

lemma sin_deg_0 : Real.sin ((0 : ℝ) * Real.pi / 180) = 0 := by
  rw [show (0 : ℝ) * Real.pi / 180 = 0 by ring, Real.sin_zero]

lemma cos_deg_0 : Real.cos ((0 : ℝ) * Real.pi / 180) = 1 := by
  rw [show (0 : ℝ) * Real.pi / 180 = 0 by ring, Real.cos_zero]

lemma sin_deg_90 : Real.sin ((90 : ℝ) * Real.pi / 180) = 1 := by
  rw [show (90 : ℝ) * Real.pi / 180 = Real.pi / 2 by ring, Real.sin_pi_div_two]

lemma cos_deg_90 : Real.cos ((90 : ℝ) * Real.pi / 180) = 0 := by
  rw [show (90 : ℝ) * Real.pi / 180 = Real.pi / 2 by ring, Real.cos_pi_div_two]

lemma sin_deg_180 : Real.sin ((180 : ℝ) * Real.pi / 180) = 0 := by
  rw [show (180 : ℝ) * Real.pi / 180 = Real.pi by ring, Real.sin_pi]

lemma cos_deg_180 : Real.cos ((180 : ℝ) * Real.pi / 180) = -1 := by
  rw [show (180 : ℝ) * Real.pi / 180 = Real.pi by ring, Real.cos_pi]

lemma sin_deg_270 : Real.sin ((270 : ℝ) * Real.pi / 180) = -1 := by
  rw [show (270 : ℝ) * Real.pi / 180 = Real.pi + Real.pi / 2 by ring]
  rw [Real.sin_add, Real.sin_pi, Real.cos_pi, Real.sin_pi_div_two,
    Real.cos_pi_div_two]
  ring

lemma cos_deg_270 : Real.cos ((270 : ℝ) * Real.pi / 180) = 0 := by
  rw [show (270 : ℝ) * Real.pi / 180 = Real.pi + Real.pi / 2 by ring]
  rw [Real.cos_add, Real.sin_pi, Real.cos_pi, Real.sin_pi_div_two,
    Real.cos_pi_div_two]
  ring

/-- For an integer clock size the on-axis coordinate `n / 2` is exactly
representable in ten decimals. -/
lemma round10_half (n : ℕ) : round10 ((n : ℝ) / 2) = (n : ℝ) / 2 := by
  apply round10_eq_self _ (5000000000 * (n : ℤ))
  push_cast
  ring

/-- For an integer clock size the near-side hand coordinate
`n / 2 - 0.8 * (n / 2 - 3) = n / 10 + 12 / 5` is exactly representable. -/
lemma round10_near (n : ℕ) :
    round10 ((n : ℝ) / 10 + 12 / 5) = (n : ℝ) / 10 + 12 / 5 := by
  apply round10_eq_self _ (1000000000 * (n : ℤ) + 24000000000)
  push_cast
  ring

/-- For an integer clock size the far-side hand coordinate
`n / 2 + 0.8 * (n / 2 - 3) = 9 * n / 10 - 12 / 5` is exactly representable. -/
lemma round10_far (n : ℕ) :
    round10 (9 * (n : ℝ) / 10 - 12 / 5) = 9 * (n : ℝ) / 10 - 12 / 5 := by
  apply round10_eq_self _ (9000000000 * (n : ℤ) - 24000000000)
  push_cast
  ring

/-- On a list all of whose elements are mapped to `some`, `filterMap`
coincides with extracting each value. -/
lemma filterMap_eq_map_getD {α β : Type} (f : α → Option β) (dflt : β) :
    ∀ l : List α, (∀ a ∈ l, (f a).isSome = true) →
      l.filterMap f = l.map (fun a => (f a).getD dflt) := by
  intro l
  induction l with
  | nil => intro _; rfl
  | cons a t ih =>
    intro h
    have ha := h a (List.mem_cons_self a t)
    obtain ⟨b, hb⟩ := Option.isSome_iff_exists.mp ha
    simp [List.filterMap_cons, hb,
      ih (fun x hx => h x (List.mem_cons_of_mem a hx))]

/-- Claim C1, counterexample to the stated directions: at angle 90°, clock
size 100, x = 0, y = 0, the hand-tip x-coordinate is 12.4, strictly left of
the face center's x-coordinate 50, so angle 90° does not point right. -/
theorem claim_C1_counterexample :
    (angle_calculation 90 100 0 0).1 = 12.4 ∧
    (angle_calculation 90 100 0 0).1 < 100 / 2 := by
  have e90 := unpos_eval 90 (100 : ℝ) 1 0 sin_deg_90 cos_deg_90
  rw [show (100 : ℝ) / 2 + ((100 : ℝ) / 2 - 3) * 0.8 * (-1) * 1 = 12.4 by norm_num] at e90
  have hr : round10 (12.4 : ℝ) = 12.4 := by
    apply round10_eq_self _ 124000000000
    norm_num
  unfold angle_calculation
  rw [e90]
  simp only [hr]
  norm_num

/-- Claim C1 (amended): for x = 0, y = 0 and any integer clock size of at
least 7, angle 0° points straight up from the face center, angle 90° points
left, angle 180° points down and angle 270° points right (screen
coordinates, y growing downward): the off-axis coordinate of the hand tip
equals the center coordinate `n / 2` and the on-axis coordinate is smaller
(up, left) or larger (down, right) than `n / 2`. -/
theorem claim_C1 (n : ℕ) (h : 7 ≤ n) :
    ((angle_calculation 0 n 0 0).1 = (n : ℝ) / 2 ∧
      (angle_calculation 0 n 0 0).2 < (n : ℝ) / 2) ∧
    ((angle_calculation 90 n 0 0).2 = (n : ℝ) / 2 ∧
      (angle_calculation 90 n 0 0).1 < (n : ℝ) / 2) ∧
    ((angle_calculation 180 n 0 0).1 = (n : ℝ) / 2 ∧
      (n : ℝ) / 2 < (angle_calculation 180 n 0 0).2) ∧
    ((angle_calculation 270 n 0 0).2 = (n : ℝ) / 2 ∧
      (n : ℝ) / 2 < (angle_calculation 270 n 0 0).1) := by
  have hs : (7 : ℝ) ≤ (n : ℝ) := by exact_mod_cast h
  have e0 := unpos_eval 0 (n : ℝ) 0 1 sin_deg_0 cos_deg_0
  have e90 := unpos_eval 90 (n : ℝ) 1 0 sin_deg_90 cos_deg_90
  have e180 := unpos_eval 180 (n : ℝ) 0 (-1) sin_deg_180 cos_deg_180
  have e270 := unpos_eval 270 (n : ℝ) (-1) 0 sin_deg_270 cos_deg_270
  rw [show (n : ℝ) / 2 + ((n : ℝ) / 2 - 3) * 0.8 * (-1) * 0 = (n : ℝ) / 2 by ring,
      show (n : ℝ) / 2 + ((n : ℝ) / 2 - 3) * 0.8 * (-1) * 1 =
        (n : ℝ) / 10 + 12 / 5 by ring] at e0 e90
  rw [show (n : ℝ) / 2 + ((n : ℝ) / 2 - 3) * 0.8 * (-1) * (-1) =
        9 * (n : ℝ) / 10 - 12 / 5 by ring] at e180 e270
  rw [show (n : ℝ) / 2 + ((n : ℝ) / 2 - 3) * 0.8 * (-1) * 0 = (n : ℝ) / 2 by ring]
    at e180 e270
  unfold angle_calculation
  rw [e0, e90, e180, e270]
  simp only [round10_half, round10_near, round10_far]
  refine ⟨⟨by ring, by linarith⟩, ⟨by ring, by linarith⟩, ⟨by ring, by linarith⟩,
    by ring, by linarith⟩

/-- Claim C1, witness: the amended statement instantiated at clock size 100. -/
theorem claim_C1_witness :
    7 ≤ 100 ∧
    ((((angle_calculation 0 ((100 : ℕ) : ℝ) 0 0).1 = ((100 : ℕ) : ℝ) / 2 ∧
      (angle_calculation 0 ((100 : ℕ) : ℝ) 0 0).2 < ((100 : ℕ) : ℝ) / 2) ∧
    ((angle_calculation 90 ((100 : ℕ) : ℝ) 0 0).2 = ((100 : ℕ) : ℝ) / 2 ∧
      (angle_calculation 90 ((100 : ℕ) : ℝ) 0 0).1 < ((100 : ℕ) : ℝ) / 2) ∧
    ((angle_calculation 180 ((100 : ℕ) : ℝ) 0 0).1 = ((100 : ℕ) : ℝ) / 2 ∧
      ((100 : ℕ) : ℝ) / 2 < (angle_calculation 180 ((100 : ℕ) : ℝ) 0 0).2) ∧
    ((angle_calculation 270 ((100 : ℕ) : ℝ) 0 0).2 = ((100 : ℕ) : ℝ) / 2 ∧
      ((100 : ℕ) : ℝ) / 2 < (angle_calculation 270 ((100 : ℕ) : ℝ) 0 0).1))) :=
  ⟨by decide, claim_C1 100 (by decide)⟩

/-- Claim C2, counterexample to the stated date order: with the simulated
instant 2026-10-12 13:45:07, `current_time(date=True, hours=False)` returns
year, month, day, not day, month, year. -/
theorem claim_C2_counterexample :
    current_time ⟨"2026", "10", "12", "13", "45", "07"⟩ true false =
      Except.ok ["2026", "10", "12"] ∧
    ["2026", "10", "12"] ≠ ["12", "10", "2026"] :=
  ⟨rfl, by decide⟩

/-- Claim C2 (amended): `current_time(date=False, hours=True)` returns
exactly 3 string components in the order hour, minute, second;
`current_time(date=True, hours=False)` returns exactly 3 string components
in the order year, month, day. -/
theorem claim_C2 :
    ∀ now : NowParts,
      current_time now false true = Except.ok [now.hour, now.minute, now.second] ∧
      [now.hour, now.minute, now.second].length = 3 ∧
      current_time now true false = Except.ok [now.year, now.month, now.day] ∧
      [now.year, now.month, now.day].length = 3 := by
  intro now
  exact ⟨rfl, rfl, rfl, rfl⟩

/-- Claim C3, counterexample to the stated group count: for the simulated
reading "13:45:07", `full_clock_time(hours=True, date=False)` produces 8
digit-pattern groups (one per character of "13:45:07"), not 6. -/
theorem claim_C3_counterexample :
    (full_clock_time ⟨"2026", "10", "12", "13", "45", "07"⟩ false true).map
      List.length = Except.ok 8 ∧ (8 : Nat) ≠ 6 :=
  ⟨rfl, by decide⟩

/-- Claim C3 (amended): for any simulated instant whose clock reads
"13:45:07", `full_clock_time(hours=True, date=False)` produces exactly 8
digit-pattern groups matching the glyphs '1','3',':','4','5',':','0','7' in
that order, each group equal to the static table's orientation grid for
its glyph (`clock_digit`). -/
theorem claim_C3 :
    ∀ y mo d : String,
      full_clock_time ⟨y, mo, d, "13", "45", "07"⟩ false true =
        Except.ok (['1', '3', ':', '4', '5', ':', '0', '7'].map
          (fun c => (clock_digit c).getD [])) ∧
      (['1', '3', ':', '4', '5', ':', '0', '7'].map
        (fun c => (clock_digit c).getD [])).length = 8 := by
  intro y mo d
  exact ⟨rfl, rfl⟩

/-- Claim C4: every pattern of the digit table has exactly 6 rows of exactly
4 characters, so the startup assertion over the whole table succeeds. -/
theorem claim_C4 :
    DigitRepresentation.all
      (fun e => e.2.length == 6 && e.2.all (fun row => row.length == 4)) = true := by
  decide

/-- Claim C5: the glyph-to-orientation lookup is total; every character that
is not one of the six recognized glyphs maps to the default diagonal pair
`(DEG_150, DEG_150)`. -/
theorem claim_C5 :
    ∀ c : Char, c ∉ ['└', '┌', '┐', '┘', '-', '|'] →
      ClockDirectionMap c = (.DEG_150, .DEG_150) := by
  intro c hc
  simp only [List.mem_cons, List.mem_singleton, not_or] at hc
  simp [ClockDirectionMap, hc.1, hc.2.1, hc.2.2.1, hc.2.2.2.1, hc.2.2.2.2.1,
    hc.2.2.2.2.2]

/-- Claim C5, witness: the unrecognized glyph 'Z' maps to the default pair. -/
theorem claim_C5_witness :
    'Z' ∉ ['└', '┌', '┐', '┘', '-', '|'] ∧
    ClockDirectionMap 'Z' = (.DEG_150, .DEG_150) :=
  ⟨by decide, claim_C5 'Z' (by decide)⟩

/-- Claim C6: `current_time` raises the `ValueError` exactly when both
toggles are false, and returns normally exactly when at least one toggle is
true. -/
theorem claim_C6 :
    ∀ (now : NowParts) (d h : Bool),
      (current_time now d h =
        Except.error
          (.valueError "At least one of 'date' or 'hours' must be True.") ↔
        (d = false ∧ h = false)) ∧
      ((∃ v, current_time now d h = Except.ok v) ↔ (d = true ∨ h = true)) := by
  intro now d h
  cases d <;> cases h <;> simp [current_time]

/-- Claim C7, counterexample to the logging part: on a tick with both
toggles false the frame is skipped, but the tick emits no log event at all,
so the skip is not logged as a recoverable condition. -/
theorem claim_C7_counterexample :
    (print_to_tk_step false false ⟨"2026", "10", "12", "13", "45", "07"⟩).outcome =
      .frameSkipped ∧
    (print_to_tk_step false false ⟨"2026", "10", "12", "13", "45", "07"⟩).logs =
      [] := by
  decide

/-- Claim C7 (amended): when both display toggles are false during a redraw
tick, `print_to_tk` catches the formatting `ValueError`, silently skips the
frame without crashing and without logging, and still reschedules itself;
any error not swallowed by the `except ValueError` clause propagates and
prevents the rescheduling. -/
theorem claim_C7 :
    (∀ now : NowParts,
      print_to_tk_step false false now = ⟨.frameSkipped, true, []⟩) ∧
    (∀ (now : NowParts) (d h : Bool) (e : ClockError),
      full_clock_time now d h = Except.error e →
      print_to_tk_catches e = false →
      print_to_tk_step d h now = ⟨.raised e, false, []⟩) := by
  constructor
  · intro now
    have hft : full_clock_time now false false =
        Except.error
          (.valueError "At least one of 'date' or 'hours' must be True.") := rfl
    have hc : print_to_tk_catches
        (.valueError "At least one of 'date' or 'hours' must be True.") = true := by
      decide
    unfold print_to_tk_step
    rw [hft]
    simp [hc]
  · intro now d h e hft hcatch
    unfold print_to_tk_step
    rw [hft]
    simp [hcatch]

/-- Claim C7, witness: the skip branch at a concrete instant, and the
propagating branch at a concrete instant whose hour field "XX" fails the
pattern assertion. -/
theorem claim_C7_witness :
    print_to_tk_step false false ⟨"2026", "10", "12", "13", "45", "07"⟩ =
      ⟨.frameSkipped, true, []⟩ ∧
    print_to_tk_step false true ⟨"2026", "10", "12", "XX", "45", "07"⟩ =
      ⟨.raised (.assertionError "String contains invalid characters."), false, []⟩ :=
  ⟨claim_C7.1 ⟨"2026", "10", "12", "13", "45", "07"⟩,
   claim_C7.2 ⟨"2026", "10", "12", "XX", "45", "07"⟩ false true
     (.assertionError "String contains invalid characters.") rfl (by decide)⟩

/-- Claim C8: for every argument list, the date toggle is set exactly when
"--date" occurs, and the hours toggle exactly when "--hours" occurs or
"--date" does not. -/
theorem claim_C8 :
    ∀ argv : List String,
      ((parse_args argv).1 = true ↔ "--date" ∈ argv) ∧
      ((parse_args argv).2 = true ↔ ("--hours" ∈ argv ∨ "--date" ∉ argv)) := by
  intro argv
  by_cases hd : "--date" ∈ argv <;> by_cases hh : "--hours" ∈ argv <;>
    simp [parse_args, List.contains, List.elem_iff, hd, hh]

/-- Claim C9: a missing or empty APPDATA falls back to `<home>/.appdata`
(and the log directory to `<home>/.appdata/PyClock`), and when the home
directory is undeterminable (`expanduser` returned "~") startup fails with
the fatal `EnvironmentError`. -/
theorem claim_C9 :
    (∀ home : String, home ≠ "~" →
      resolve_appdata none home = Except.ok (pathJoin home ".appdata") ∧
      resolve_appdata (some "") home = Except.ok (pathJoin home ".appdata") ∧
      log_dir_of none home =
        Except.ok (pathJoin (pathJoin home ".appdata") "PyClock")) ∧
    resolve_appdata none "~" = Except.error "Cannot determine home directory." ∧
    resolve_appdata (some "") "~" =
      Except.error "Cannot determine home directory." := by
  refine ⟨?_, rfl, rfl⟩
  intro home hh
  have h1 : resolve_appdata none home = Except.ok (pathJoin home ".appdata") := by
    simp [resolve_appdata, hh]
  have h2 : resolve_appdata (some "") home = Except.ok (pathJoin home ".appdata") := by
    simp [resolve_appdata, hh]
  exact ⟨h1, h2, by simp [log_dir_of, h1, Except.map]⟩

/-- Claim C9, witness: the fallback instantiated at the home directory
"/home/user". -/
theorem claim_C9_witness :
    resolve_appdata none "/home/user" =
      Except.ok (pathJoin "/home/user" ".appdata") ∧
    log_dir_of none "/home/user" =
      Except.ok (pathJoin (pathJoin "/home/user" ".appdata") "PyClock") :=
  ⟨(claim_C9.1 "/home/user" (by decide)).1, (claim_C9.1 "/home/user" (by decide)).2.2⟩

/-- Claim C10, counterexample to the unreachability part: the blank pattern
cells of the space glyph map to the default pair `(DEG_150, DEG_150)`, so
the default pair is reachable through a successful `full_clock_string`. -/
theorem claim_C10_counterexample :
    full_clock_string " " = Except.ok [(clock_digit ' ').getD []] ∧
    (ClockOrientation.DEG_150, ClockOrientation.DEG_150) ∈
      ((clock_digit ' ').getD []).flatten :=
  ⟨rfl, by decide⟩

/-- Claim C10 (amended): `full_clock_string` fails with the assertion error
for every string containing a character outside the 13-key pattern
alphabet, and for strings within the alphabet returns exactly one
`ClockSquare` per character in order; however, the unknown-glyph default
pair is reachable through `full_clock_string`, because blank pattern cells
(' ' inside the 6×4 grids) are not `ClockDirectionMap` keys and take the
default. -/
theorem claim_C10 :
    (∀ s : String, (∃ c ∈ s.toList, DigitRepresentation.lookup c = none) →
      full_clock_string s =
        Except.error (.assertionError "String contains invalid characters.")) ∧
    (∀ s : String, (∀ c ∈ s.toList, (DigitRepresentation.lookup c).isSome = true) →
      full_clock_string s =
        Except.ok (s.toList.map (fun c => (clock_digit c).getD [])) ∧
      (s.toList.map (fun c => (clock_digit c).getD [])).length = s.length) ∧
    ((ClockOrientation.DEG_150, ClockOrientation.DEG_150) ∈
      ((clock_digit ' ').getD []).flatten ∧
      full_clock_string " " = Except.ok [(clock_digit ' ').getD []]) := by
  refine ⟨?_, ?_, by decide, rfl⟩
  · intro s hbad
    obtain ⟨c, hc, hnone⟩ := hbad
    have hall : s.toList.all (fun c => (DigitRepresentation.lookup c).isSome) = false := by
      apply List.all_eq_false.mpr
      refine ⟨c, hc, ?_⟩
      simp [hnone]
    unfold full_clock_string
    rw [if_neg]
    intro hcond
    rw [hcond] at hall
    exact Bool.noConfusion hall
  · intro s hgood
    have hall : s.toList.all (fun c => (DigitRepresentation.lookup c).isSome) = true := by
      apply List.all_eq_true.mpr
      intro c hc
      exact hgood c hc
    have hmap : s.toList.filterMap clock_digit =
        s.toList.map (fun c => (clock_digit c).getD []) := by
      apply filterMap_eq_map_getD
      intro c hc
      have := hgood c hc
      simp [clock_digit, this]
    constructor
    · unfold full_clock_string
      rw [if_pos hall, hmap]
    · rw [List.length_map]
      rfl

/-- Claim C10, witness: the assertion failure on "A" and the per-character
conversion of "13". -/
theorem claim_C10_witness :
    full_clock_string "A" =
      Except.error (.assertionError "String contains invalid characters.") ∧
    full_clock_string "13" =
      Except.ok ("13".toList.map (fun c => (clock_digit c).getD [])) :=
  ⟨claim_C10.1 "A" (by decide), (claim_C10.2.1 "13" (by decide)).1⟩

/-- Claim C2, witness: the amended statement instantiated at the simulated
instant 2026-10-12 13:45:07. -/
theorem claim_C2_witness :
    current_time ⟨"2026", "10", "12", "13", "45", "07"⟩ false true =
      Except.ok ["13", "45", "07"] ∧
    current_time ⟨"2026", "10", "12", "13", "45", "07"⟩ true false =
      Except.ok ["2026", "10", "12"] :=
  ⟨(claim_C2 ⟨"2026", "10", "12", "13", "45", "07"⟩).1,
   (claim_C2 ⟨"2026", "10", "12", "13", "45", "07"⟩).2.2.1⟩

/-- Claim C3, witness: the amended statement instantiated at the date fields
2026-10-12. -/
theorem claim_C3_witness :
    full_clock_time ⟨"2026", "10", "12", "13", "45", "07"⟩ false true =
      Except.ok (['1', '3', ':', '4', '5', ':', '0', '7'].map
        (fun c => (clock_digit c).getD [])) :=
  (claim_C3 "2026" "10" "12").1

/-- Claim C6, witness: both toggles false raises, and hours alone returns
normally, at the simulated instant 2026-10-12 13:45:07. -/
theorem claim_C6_witness :
    current_time ⟨"2026", "10", "12", "13", "45", "07"⟩ false false =
      Except.error
        (.valueError "At least one of 'date' or 'hours' must be True.") ∧
    ∃ v, current_time ⟨"2026", "10", "12", "13", "45", "07"⟩ false true =
      Except.ok v :=
  ⟨(claim_C6 ⟨"2026", "10", "12", "13", "45", "07"⟩ false false).1.mpr ⟨rfl, rfl⟩,
   (claim_C6 ⟨"2026", "10", "12", "13", "45", "07"⟩ false true).2.mpr (Or.inr rfl)⟩

/-- Claim C8, witness: the toggle equivalences instantiated at the argument
list `["--date"]`. -/
theorem claim_C8_witness :
    ((parse_args ["--date"]).1 = true ↔ "--date" ∈ ["--date"]) ∧
    ((parse_args ["--date"]).2 = true ↔
      ("--hours" ∈ ["--date"] ∨ "--date" ∉ ["--date"])) :=
  claim_C8 ["--date"]
